import Mathlib

/-!
Verification of the authentication and session-integrity subsystem of the
mind-map web application (backend `models/User.js`, `middleware/auth.js`,
`controllers/authController.js`, `routes` wiring).

Conventions of the shallow embedding:
* Timestamps are `Nat` milliseconds since the epoch (as `Date.now()`).
* MongoDB documents become Lean structures.  A field removed by `$unset`
  reads back as its schema default (`0` for `loginAttempts`, `null`/`none`
  for `lockUntil`), which is how mongoose presents an absent path.
* External libraries (bcryptjs, jsonwebtoken, speakeasy) are modelled by
  small executable stand-ins that reproduce the control-flow-relevant part
  of their contracts (tagging functions for hashes and codes, explicit
  error results for the argument checks that matter here).
* Fallible JavaScript is modelled with `Except`/`Option`; an uncaught throw
  inside a handler surfaces through the handler's `catch` branch exactly as
  in the source.
-/

namespace MindMap

/-- Two hours in milliseconds (`2 * 60 * 60 * 1000`, User.js line 110). -/
def twoHoursMs : Nat := 2 * 60 * 60 * 1000

/-- Thirty minutes in milliseconds (session idle timeout, auth.js line 86). -/
def thirtyMinMs : Nat := 30 * 60 * 1000

/-- Default JWT secret from middleware/auth.js line 5. -/
def JWT_SECRET : String := "mindmap_super_secret_key_2024"

/-- Models bcryptjs hashing (`bcrypt.hash(p, 12)`) as an injective tagging
function; the salt/cost are irrelevant to control flow. -/
def bcryptHash (p : String) : String := "bcrypt$" ++ p

/-- Models `bcrypt.compare(candidate, hash)` from bcryptjs: when the stored
hash is not a string (e.g. the field was deselected and reads as
`undefined`), bcryptjs rejects with an illegal-arguments error instead of
returning a boolean. -/
def bcryptCompare (candidate : String) (hash : Option String) : Except String Bool :=
  match hash with
  | none => .error "Illegal arguments: string, undefined"
  | some h => .ok (bcryptHash candidate == h)

/-- Models a speakeasy TOTP code for a secret at a 30-second time step. -/
def totpCode (secret : String) (timeStep : Nat) : String :=
  "totp$" ++ secret ++ "$" ++ toString timeStep

/-- Models `speakeasy.totp.verify({secret, token, window: 2})`: the code is
accepted when it matches the secret at the current 30-second step or within
two steps on either side. -/
def totpVerify (secret : String) (code : String) (now : Nat) : Bool :=
  let ts := now / 30000
  code == totpCode secret ts || code == totpCode secret (ts + 1) ||
  code == totpCode secret (ts + 2) || code == totpCode secret (ts - 1) ||
  code == totpCode secret (ts - 2)

/-- A MongoDB user document (userSchema in models/User.js).  `password`
holds the bcrypt hash; it is `Option` because a query may deselect it
(`.select('-password ...')`), after which the document reads it as
`undefined`. -/
structure DbUser where
  uid : Nat
  username : String
  email : String
  password : Option String
  twoFactorSecret : Option String
  twoFactorEnabled : Bool
  loginAttempts : Nat
  lockUntil : Option Nat
  lastActivity : Option Nat
  deriving Repr, DecidableEq

/-- The `isLocked` virtual (User.js lines 67-69):
`!!(this.lockUntil && this.lockUntil > Date.now())`. -/
def DbUser.isLocked (u : DbUser) (now : Nat) : Bool :=
  match u.lockUntil with
  | some t => decide (now < t)
  | none => false

/-- The guard of `incLoginAttempts`'s first branch (User.js line 96):
`this.lockUntil && this.lockUntil < Date.now()` — a previous lock exists
and has expired. -/
def DbUser.lockExpired (u : DbUser) (now : Nat) : Bool :=
  match u.lockUntil with
  | some t => decide (t < now)
  | none => false

/-- `incLoginAttempts` (User.js lines 94-115) as the transformation it
performs on the stored document.  When a previous lock has expired the
update is `$unset: { loginAttempts: 1, lockUntil: 1 }`, which removes both
fields, so the counter reads back as the schema default `0` (the `1`s in a
`$unset` are placeholders, not values).  Otherwise the update is
`$inc: { loginAttempts: 1 }`, plus `$set` of `lockUntil` to now + 2h when
the pre-increment count + 1 reaches 5 and the account is not locked. -/
def incLoginAttempts (u : DbUser) (now : Nat) : DbUser :=
  if u.lockExpired now then
    { u with loginAttempts := 0, lockUntil := none }
  else
    let bumped := { u with loginAttempts := u.loginAttempts + 1 }
    if u.loginAttempts + 1 ≥ 5 && !(u.isLocked now) then
      { bumped with lockUntil := some (now + twoHoursMs) }
    else
      bumped

/-- Replace the record with the given id in a store (the effect of an
`updateOne`/`save` on the collection). -/
def updateDbUser (store : List DbUser) (u : DbUser) : List DbUser :=
  store.map (fun v => if v.uid == u.uid then u else v)

/-- The `$or` matcher of `getAuthenticated`'s `findOne` (User.js 119-123). -/
def matchesIdentifier (identifier : String) (u : DbUser) : Bool :=
  u.username == identifier || u.email == identifier

/-- Result of `getAuthenticated`: the promise outcome, the collection after
the side effects, and whether `comparePassword` was invoked along the way
(instrumentation for the locked-account bypass property). -/
structure AuthAttempt where
  outcome : Except String DbUser
  store : List DbUser
  compareInvoked : Bool
  deriving Repr

/-- `User.getAuthenticated(username, password)` (User.js lines 118-160).
Rejections carry the message of the `Error` the source rejects with.  On a
correct password the source either `$unset`s the failure fields and `$set`s
`lastActivity` (when there was failure history; note the in-memory document
it returns keeps its stale `lastActivity`) or saves the document with a
fresh `lastActivity`. -/
def getAuthenticated (store : List DbUser) (username password : String) (now : Nat) :
    AuthAttempt :=
  match store.find? (matchesIdentifier username) with
  | none => ⟨.error "User not found", store, false⟩
  | some user =>
    if user.isLocked now then
      ⟨.error "Account is temporarily locked due to too many failed login attempts",
        updateDbUser store (incLoginAttempts user now), false⟩
    else
      match bcryptCompare password user.password with
      | .error e => ⟨.error e, store, true⟩
      | .ok true =>
        if user.loginAttempts != 0 || user.lockUntil.isSome then
          let cleared := { user with loginAttempts := 0, lockUntil := none, lastActivity := some now }
          ⟨.ok user, updateDbUser store cleared, true⟩
        else
          let refreshed := { user with lastActivity := some now }
          ⟨.ok refreshed, updateDbUser store refreshed, true⟩
      | .ok false =>
        ⟨.error "Invalid credentials", updateDbUser store (incLoginAttempts user now), true⟩

/-- The special-character set of the policy, `@$!%*?&`. -/
def specialChars : List Char := ['@', '$', '!', '%', '*', '?', '&']

/-- `/[a-z]/.test(p)`: some character is an ASCII lowercase letter. -/
def hasLowerChar (p : String) : Bool := p.data.any Char.isLower

/-- `/[A-Z]/.test(p)`: some character is an ASCII uppercase letter. -/
def hasUpperChar (p : String) : Bool := p.data.any Char.isUpper

/-- `/\d/.test(p)`: some character is an ASCII digit. -/
def hasDigitChar (p : String) : Bool := p.data.any Char.isDigit

/-- `/[@$!%*?&]/.test(p)`: some character is in the special set. -/
def hasSpecialChar (p : String) : Bool := p.data.any (fun c => specialChars.contains c)

/-- Membership in the character class `[A-Za-z\d@$!%*?&]`. -/
def allowedPasswordChar (c : Char) : Bool :=
  c.isUpper || c.isLower || c.isDigit || specialChars.contains c

/-- The five strength criteria of `validatePasswordStrength`
(User.js lines 164-170). -/
structure PasswordCriteria where
  minLength : Bool
  hasLowercase : Bool
  hasUppercase : Bool
  hasNumber : Bool
  hasSpecialChar : Bool
  deriving Repr, DecidableEq

/-- The report returned by `validatePasswordStrength`. -/
structure StrengthReport where
  isValid : Bool
  score : Nat
  criteria : PasswordCriteria
  strength : String
  deriving Repr, DecidableEq

/-- `Object.values(criteria)` in the order the fields are declared
(User.js lines 164-170). -/
def PasswordCriteria.values (c : PasswordCriteria) : List Bool :=
  [c.minLength, c.hasLowercase, c.hasUppercase, c.hasNumber, c.hasSpecialChar]

/-- `User.validatePasswordStrength(password)` (User.js lines 163-181):
computes the five criteria flags, the score as the number of flags that are
true, validity as all flags true, and the tiered strength label. -/
def validatePasswordStrength (p : String) : StrengthReport :=
  let criteria : PasswordCriteria :=
    ⟨decide (p.length ≥ 8), hasLowerChar p, hasUpperChar p, hasDigitChar p, hasSpecialChar p⟩
  let score := (criteria.values.filter id).length
  let isValid := criteria.values.all id
  ⟨isValid, score, criteria,
    if score ≤ 2 then "weak" else if score ≤ 4 then "medium" else "strong"⟩

/-- The route-level password pattern of `registerValidation`
(authController.js line 70):
`/^(?=.*[a-z])(?=.*[A-Z])(?=.*\d)(?=.*[@$!%*?&])[A-Za-z\d@$!%*?&]/`.
The four lookaheads scan the whole string; the trailing (unrepeated,
unanchored-at-end) character class only constrains the FIRST character. -/
def routePasswordPattern (p : String) : Bool :=
  hasLowerChar p && hasUpperChar p && hasDigitChar p && hasSpecialChar p &&
  (match p.data with
   | [] => false
   | c :: _ => allowedPasswordChar c)

/-- The full password check of the route validators: `isLength({min: 8})`
together with the pattern above; either failing puts an entry in
`validationResult`. -/
def routePasswordOk (p : String) : Bool :=
  decide (p.length ≥ 8) && routePasswordPattern p

/-- The pre-save password regex (User.js line 77):
`/^(?=.*[a-z])(?=.*[A-Z])(?=.*\d)(?=.*[@$!%*?&])[A-Za-z\d@$!%*?&]{8,}$/`.
Fully anchored: the four lookaheads plus EVERY character drawn from the
class, with length at least 8. -/
def preSavePasswordOk (p : String) : Bool :=
  hasLowerChar p && hasUpperChar p && hasDigitChar p && hasSpecialChar p &&
  decide (p.length ≥ 8) && p.data.all allowedPasswordChar

/-- Username rule of `registerValidation` (authController.js lines 58-62):
length 3-30 and only letters, digits and underscores. -/
def usernameValid (u : String) : Bool :=
  decide (3 ≤ u.length) && decide (u.length ≤ 30) &&
  u.data.all (fun c => c.isAlpha || c.isDigit || c == '_')

/-- Models the external validator library's `isEmail` as a basic shape
check (one `@` with nonempty sides); the claims under study quantify over
passwords at fixed well-formed emails, so only that such emails pass is
relevant. -/
def emailValid (e : String) : Bool :=
  (e.data.filter (fun c => c == '@')).length == 1 &&
  (match e.data.head? with | none => false | some c => !(c == '@')) &&
  (match e.data.getLast? with | none => false | some c => !(c == '@'))

/-- An in-memory user record, exactly the fields `createUserObject`
populates (authController.js lines 30-44).  Note there is no
`twoFactorSecret` and no `lockUntil`/lock state at all: reading those off a
record yields `undefined`, and nothing in the controllers ever adds them to
an in-memory record. -/
structure MemUser where
  uid : Nat
  username : String
  email : String
  password : String
  isEmailVerified : Bool
  twoFactorEnabled : Bool
  loginAttempts : Nat
  lastActivity : Nat
  deriving Repr, DecidableEq

/-- Process state relevant to the auth subsystem: the connectivity flag the
per-operation `isMongoConnected()` check reads, the database collection,
the module-level `inMemoryUsers` list and its `nextUserId` counter. -/
structure SysState where
  dbConnected : Bool
  dbUsers : List DbUser
  memUsers : List MemUser
  nextUserId : Nat
  deriving Repr

/-- The user object the Session Gate attaches to a request.  In database
mode it is the document loaded with `.select('-password -twoFactorSecret')`
(so both sensitive fields read as `undefined`, but the mongoose instance
method `comparePassword` still exists); in in-memory mode it is a plain
object with `password`/`twoFactorSecret` destructured away and therefore no
`comparePassword` method at all. -/
structure SanitizedUser where
  uid : Nat
  username : String
  email : String
  password : Option String
  twoFactorSecret : Option String
  twoFactorEnabled : Bool
  loginAttempts : Nat
  lockUntil : Option Nat
  lastActivity : Option Nat
  hasCompareMethod : Bool
  deriving Repr, DecidableEq

/-- The `isLocked` read on an attached user: for a mongoose document this
is the virtual; for a plain in-memory object the property is `undefined`
(falsy), which the `lockUntil := none` encoding reproduces. -/
def SanitizedUser.isLocked (u : SanitizedUser) (now : Nat) : Bool :=
  match u.lockUntil with
  | some t => decide (now < t)
  | none => false

/-- Sanitized view of a database user as loaded by
`User.findById(id).select('-password -twoFactorSecret')` (auth.js line 21). -/
def DbUser.sanitize (u : DbUser) : SanitizedUser :=
  ⟨u.uid, u.username, u.email, none, none, u.twoFactorEnabled,
    u.loginAttempts, u.lockUntil, u.lastActivity, true⟩

/-- Sanitized view of an in-memory user after
`const { password, twoFactorSecret, ...userWithoutSensitive } = foundUser`
(auth.js line 30). -/
def MemUser.sanitize (u : MemUser) : SanitizedUser :=
  ⟨u.uid, u.username, u.email, none, none, u.twoFactorEnabled,
    u.loginAttempts, none, some u.lastActivity, false⟩

/-- `getUserFromStorage(userId)` (auth.js lines 14-38): consults the live
connectivity flag, loads from the authoritative store, strips sensitive
fields, and reports which mode was used. -/
def getUserFromStorage (st : SysState) (userId : Nat) : Option SanitizedUser × Bool :=
  if st.dbConnected then
    match st.dbUsers.find? (fun u => u.uid == userId) with
    | some u => (some u.sanitize, true)
    | none => (none, true)
  else
    match st.memUsers.find? (fun u => u.uid == userId) with
    | some u => (some u.sanitize, false)
    | none => (none, false)

/-- `updateUserActivity(user, isMongoConnected)` (auth.js lines 41-52). -/
def updateUserActivity (st : SysState) (u : SanitizedUser) (isMongo : Bool) (now : Nat) :
    SysState :=
  if isMongo then
    { st with dbUsers :=
        st.dbUsers.map (fun v => if v.uid == u.uid then { v with lastActivity := some now } else v) }
  else
    { st with memUsers :=
        st.memUsers.map (fun v => if v.uid == u.uid then { v with lastActivity := now } else v) }

/-- A signed token as the jsonwebtoken library produces and checks it:
payload (`userId`), issue and expiry instants, the secret it was signed
with, and whether it is structurally well formed. -/
structure Token where
  userId : Nat
  iat : Nat
  exp : Nat
  secret : String
  wellFormed : Bool
  deriving Repr, DecidableEq

/-- The two verification failures jsonwebtoken distinguishes:
`TokenExpiredError` and `JsonWebTokenError` (bad signature or malformed
structure). -/
inductive JwtError where
  | expired
  | invalid
  deriving Repr, DecidableEq

/-- The decoded payload. -/
structure JwtPayload where
  userId : Nat
  deriving Repr, DecidableEq

/-- `generateToken(userId)` (auth.js lines 9-11): signs `{userId}` with
`JWT_SECRET` and `expiresIn: '30m'`. -/
def generateToken (userId : Nat) (now : Nat) : Token :=
  ⟨userId, now, now + thirtyMinMs, JWT_SECRET, true⟩

/-- Models `jwt.verify(token, secret)`: a malformed token or one signed
with a different secret fails with `JsonWebTokenError`; otherwise the
token is expired exactly when the clock has reached `exp`; otherwise the
payload is returned. -/
def jwtVerify (t : Token) (secret : String) (now : Nat) : Except JwtError JwtPayload :=
  if !t.wellFormed || t.secret != secret then .error .invalid
  else if t.exp ≤ now then .error .expired
  else .ok ⟨t.userId⟩

/-- An HTTP response as far as the claims need it: status code, the
`success` flag and the `message` of the JSON envelope. -/
structure HttpResponse where
  status : Nat
  success : Bool
  message : String
  deriving Repr, DecidableEq

/-- Outcome of the `authenticateToken` middleware: either the request
proceeds with an attached user (and the state after the activity update),
or it is rejected with a response. -/
inductive GateResult where
  | ok (user : SanitizedUser) (st : SysState)
  | reject (resp : HttpResponse) (st : SysState)
  deriving Repr

/-- The idle-timeout test (auth.js line 87):
`user.lastActivity && user.lastActivity < thirtyMinutesAgo` where
`thirtyMinutesAgo = now - 30min`; over integers this is
`lastActivity + 30min < now`. -/
def sessionIdleExpired (lastActivity : Option Nat) (now : Nat) : Bool :=
  match lastActivity with
  | some la => decide (la + thirtyMinMs < now)
  | none => false

/-- `authenticateToken` (auth.js lines 55-119).  The request is modelled by
its (already extracted) bearer token, `none` when the header carries no
token. -/
def authenticateToken (st : SysState) (token : Option Token) (now : Nat) : GateResult :=
  match token with
  | none => .reject ⟨401, false, "Access token required"⟩ st
  | some t =>
    match jwtVerify t JWT_SECRET now with
    | .error .expired => .reject ⟨401, false, "Token expired"⟩ st
    | .error .invalid => .reject ⟨401, false, "Invalid token"⟩ st
    | .ok payload =>
      match getUserFromStorage st payload.userId with
      | (none, _) => .reject ⟨401, false, "Invalid token - user not found"⟩ st
      | (some user, isMongo) =>
        if isMongo && user.isLocked now then
          .reject ⟨423, false, "Account is temporarily locked"⟩ st
        else if sessionIdleExpired user.lastActivity now then
          .reject ⟨401, false, "Session expired due to inactivity"⟩ st
        else
          .ok user (updateUserActivity st user isMongo now)

/-- `optionalAuth` (auth.js lines 122-147): identical checks but every
failure is swallowed and the request proceeds anonymously. -/
def optionalAuth (st : SysState) (token : Option Token) (now : Nat) :
    Option SanitizedUser × SysState :=
  match token with
  | none => (none, st)
  | some t =>
    match jwtVerify t JWT_SECRET now with
    | .error _ => (none, st)
    | .ok payload =>
      match getUserFromStorage st payload.userId with
      | (none, _) => (none, st)
      | (some user, isMongo) =>
        if !isMongo || !(user.isLocked now) then
          if !(sessionIdleExpired user.lastActivity now) then
            (some user, updateUserActivity st user isMongo now)
          else (none, st)
        else (none, st)

/-- Result of a controller handler: the response sent and the process
state afterwards. -/
structure HandlerResult where
  resp : HttpResponse
  st : SysState
  deriving Repr

/-- A fresh database document as `new User({username, email, password})`
followed by the pre-save hook's hashing stores it (User.js lines 72-86,
schema defaults elsewhere).  The database-assigned opaque id is modelled by
the same counter the in-memory fallback uses. -/
def mkDbUser (uid : Nat) (username email password : String) (now : Nat) : DbUser :=
  ⟨uid, username, email, some (bcryptHash password), none, false, 0, none, some now⟩

/-- A fresh in-memory record as `createUserObject` builds it
(authController.js lines 30-44). -/
def mkMemUser (uid : Nat) (username email password : String) (now : Nat) : MemUser :=
  ⟨uid, username, email, bcryptHash password, false, false, 0, now⟩

/-- The `register` handler behind its `registerValidation` middleware
(authController.js lines 57-72 and 84-196).  Failure of any route
validator yields 400 "Validation failed"; a duplicate username/email in
the authoritative store yields 409; the inline length check yields 400;
in database mode a `validatePasswordStrength` failure yields 400 and a
pre-save regex failure makes `save` throw, which the handler's catch turns
into a 500 with the hook's message; otherwise the user is stored and 201
returned. -/
def register (st : SysState) (username email password : String) (now : Nat) :
    HandlerResult :=
  if !(usernameValid username && emailValid email && routePasswordOk password) then
    ⟨⟨400, false, "Validation failed"⟩, st⟩
  else
    let dup :=
      if st.dbConnected then
        st.dbUsers.any (fun u => u.username == username || u.email == email)
      else
        st.memUsers.any (fun u => u.username == username || u.email == email)
    if dup then
      ⟨⟨409, false, "Username or email already exists"⟩, st⟩
    else if password.length < 8 then
      ⟨⟨400, false, "Password must be at least 8 characters long"⟩, st⟩
    else if st.dbConnected then
      if !(validatePasswordStrength password).isValid then
        ⟨⟨400, false, "Password does not meet security requirements"⟩, st⟩
      else if !preSavePasswordOk password then
        ⟨⟨500, false, "Password must be at least 8 characters long and contain at least one lowercase letter, one uppercase letter, one number, and one special character"⟩, st⟩
      else
        ⟨⟨201, true, "User registered successfully"⟩,
          { st with dbUsers := st.dbUsers ++ [mkDbUser st.nextUserId username email password now],
                    nextUserId := st.nextUserId + 1 }⟩
    else
      ⟨⟨201, true, "User registered successfully"⟩,
        { st with memUsers := st.memUsers ++ [mkMemUser st.nextUserId username email password now],
                  nextUserId := st.nextUserId + 1 }⟩

/-- Result of the `login` handler, instrumented (as `AuthAttempt` is) with
whether a bcrypt password comparison was invoked while handling the
request. -/
structure LoginResult where
  resp : HttpResponse
  st : SysState
  compareInvoked : Bool
  deriving Repr

/-- The tail of `login` once a user has authenticated (authController.js
lines 245-292): the 2FA gate, then the success response. -/
def loginAfterAuth (st : SysState) (user : DbUser) (twoFactorCode : Option String)
    (now : Nat) (cmp : Bool) : LoginResult :=
  if user.twoFactorEnabled then
    match twoFactorCode with
    | none => ⟨⟨200, true, "Two-factor authentication required"⟩, st, cmp⟩
    | some code =>
      if code == "" then ⟨⟨200, true, "Two-factor authentication required"⟩, st, cmp⟩
      else
        match user.twoFactorSecret with
        | some secret =>
          if totpVerify secret code now then ⟨⟨200, true, "Login successful"⟩, st, cmp⟩
          else ⟨⟨400, false, "Invalid two-factor authentication code"⟩, st, cmp⟩
        | none => ⟨⟨400, false, "Invalid two-factor authentication code"⟩, st, cmp⟩
  else
    ⟨⟨200, true, "Login successful"⟩, st, cmp⟩

/-- The `login` handler behind `loginValidation` (authController.js lines
74-81 and 199-301).  Validation only requires both fields nonempty.  In
database mode authentication goes through `getAuthenticated`; rejections
reach the catch block, which sends status 401 with `error.message`.  In
in-memory mode the handler searches `inMemoryUsers` itself, throws
"User not found" / "Invalid password" (also surfacing as 401 +
message), and on success refreshes the record's `lastActivity`. -/
def login (st : SysState) (username password : String) (twoFactorCode : Option String)
    (now : Nat) : LoginResult :=
  if username == "" || password == "" then
    ⟨⟨400, false, "Validation failed"⟩, st, false⟩
  else if st.dbConnected then
    let r := getAuthenticated st.dbUsers username password now
    match r.outcome with
    | .error msg => ⟨⟨401, false, msg⟩, { st with dbUsers := r.store }, r.compareInvoked⟩
    | .ok user => loginAfterAuth { st with dbUsers := r.store } user twoFactorCode now r.compareInvoked
  else
    match st.memUsers.find? (fun u => u.username == username || u.email == username) with
    | none => ⟨⟨401, false, "User not found"⟩, st, false⟩
    | some u =>
      if bcryptHash password == u.password then
        let u' := { u with lastActivity := now }
        let st' := { st with memUsers := st.memUsers.map (fun v => if v.uid == u.uid then u' else v) }
        if u'.twoFactorEnabled then
          match twoFactorCode with
          | none => ⟨⟨200, true, "Two-factor authentication required"⟩, st', true⟩
          | some code =>
            if code == "" then ⟨⟨200, true, "Two-factor authentication required"⟩, st', true⟩
            else ⟨⟨400, false, "Invalid two-factor authentication code"⟩, st', true⟩
        else
          ⟨⟨200, true, "Login successful"⟩, st', true⟩
      else
        ⟨⟨401, false, "Invalid password"⟩, st, true⟩

/-- `user.comparePassword(candidate)` as invoked on the request-attached
user object: the in-memory plain object has no such method (a `TypeError`),
and the database document was loaded with the password deselected, so
bcryptjs rejects with an illegal-arguments error; only a document that
still carries its hash can actually compare. -/
def SanitizedUser.comparePassword (u : SanitizedUser) (candidate : String) :
    Except String Bool :=
  if !u.hasCompareMethod then .error "user.comparePassword is not a function"
  else bcryptCompare candidate u.password

/-- `User.findByIdAndUpdate(id, f)`: goes to the mongoose model, i.e. the
database collection only; with the database disconnected the operation
buffers and then fails.  It never touches `inMemoryUsers`. -/
def dbFindByIdAndUpdate (st : SysState) (uid : Nat) (f : DbUser → DbUser) :
    Except String SysState :=
  if st.dbConnected then
    .ok { st with dbUsers := st.dbUsers.map (fun u => if u.uid == uid then f u else u) }
  else
    .error "Operation buffering timed out"

/-- Result of a 2FA handler: response, state, and the session's pending
2FA secret afterwards. -/
structure TwoFactorResult where
  resp : HttpResponse
  st : SysState
  pendingSecret : Option String
  deriving Repr

/-- `verifyTwoFactor` (authController.js lines 386-443): requires a code
and a pending session secret, checks the TOTP code against the pending
secret, then commits secret + `twoFactorEnabled` through
`User.findByIdAndUpdate` and clears the pending slot; a storage failure
surfaces as 500 through the catch block. -/
def verifyTwoFactor (st : SysState) (user : SanitizedUser) (code : Option String)
    (pendingSecret : Option String) (now : Nat) : TwoFactorResult :=
  if code.getD "" == "" then
    ⟨⟨400, false, "Verification code is required"⟩, st, pendingSecret⟩
  else
    match pendingSecret with
    | none => ⟨⟨400, false, "No setup session found. Please start the setup process again."⟩, st, pendingSecret⟩
    | some secret =>
      if !totpVerify secret (code.getD "") now then
        ⟨⟨400, false, "Invalid verification code"⟩, st, pendingSecret⟩
      else
        match dbFindByIdAndUpdate st user.uid
            (fun u => { u with twoFactorSecret := some secret, twoFactorEnabled := true }) with
        | .ok st' => ⟨⟨200, true, "Two-factor authentication enabled successfully"⟩, st', none⟩
        | .error _ => ⟨⟨500, false, "Failed to verify two-factor authentication"⟩, st, pendingSecret⟩

/-- `disableTwoFactor` (authController.js lines 446-485): requires the
password, verifies it with `user.comparePassword` on the request-attached
user, and on success clears the 2FA fields through
`User.findByIdAndUpdate`; a thrown comparison (or storage failure)
surfaces as 500 through the catch block. -/
def disableTwoFactor (st : SysState) (user : SanitizedUser) (password : Option String) :
    HandlerResult :=
  if password.getD "" == "" then
    ⟨⟨400, false, "Password is required to disable two-factor authentication"⟩, st⟩
  else
    match user.comparePassword (password.getD "") with
    | .error _ => ⟨⟨500, false, "Failed to disable two-factor authentication"⟩, st⟩
    | .ok false => ⟨⟨400, false, "Invalid password"⟩, st⟩
    | .ok true =>
      match dbFindByIdAndUpdate st user.uid
          (fun u => { u with twoFactorSecret := none, twoFactorEnabled := false }) with
      | .ok st' => ⟨⟨200, true, "Two-factor authentication disabled successfully"⟩, st'⟩
      | .error _ => ⟨⟨500, false, "Failed to disable two-factor authentication"⟩, st⟩

/-! ## Concrete fixtures used by closed theorems and witnesses -/

/-- A stored user: alice with password "Secret1!" and a clean lock state. -/
def alice : DbUser :=
  ⟨1, "alice", "alice@x.com", some (bcryptHash "Secret1!"), none, false, 0, none, some 0⟩

/-- Alice after five failures whose lock (until t=1000) has already expired
by t=2000. -/
def expiredLockAlice : DbUser := { alice with loginAttempts := 5, lockUntil := some 1000 }

/-! ## Helper lemmas -/

/-- A character-level reading of the lowercase criterion. -/
lemma hasLowerChar_iff (p : String) :
    hasLowerChar p = true ↔ ∃ c ∈ p.data, c.isLower = true := by
  simp [hasLowerChar, List.any_eq_true]

/-- A character-level reading of the uppercase criterion. -/
lemma hasUpperChar_iff (p : String) :
    hasUpperChar p = true ↔ ∃ c ∈ p.data, c.isUpper = true := by
  simp [hasUpperChar, List.any_eq_true]

/-- A character-level reading of the digit criterion. -/
lemma hasDigitChar_iff (p : String) :
    hasDigitChar p = true ↔ ∃ c ∈ p.data, c.isDigit = true := by
  simp [hasDigitChar, List.any_eq_true]

/-- A character-level reading of the special-character criterion. -/
lemma hasSpecialChar_iff (p : String) :
    hasSpecialChar p = true ↔ ∃ c ∈ p.data, c ∈ specialChars := by
  simp [hasSpecialChar, List.any_eq_true, List.elem_iff]

/-- Facts about the score, validity and tier computed from any vector of
criteria flags, by exhausting the 32 cases. -/
lemma criteria_report_facts (c : PasswordCriteria) :
    (c.values.filter id).length = c.values.count true ∧
    (c.values.filter id).length ≤ 5 ∧
    (c.values.all id = true ↔
      (c.minLength = true ∧ c.hasLowercase = true ∧ c.hasUppercase = true ∧
       c.hasNumber = true ∧ c.hasSpecialChar = true)) := by
  obtain ⟨b1, b2, b3, b4, b5⟩ := c
  cases b1 <;> cases b2 <;> cases b3 <;> cases b4 <;> cases b5 <;> decide

/-! ## C1 -/

/-- C1: after a lock has expired, the next `incLoginAttempts` is claimed to
leave `loginAttempts` equal to 1.  The source instead places
`loginAttempts` under `$unset` (User.js lines 97-102), so the counter field
is removed and reads back as the schema default 0, not the 1 announced by
the code's own "restart at 1" comment and by the spec.  At the concrete
expired-lock state the counter after the call is 0 and the lock is cleared. -/
theorem expiredLock_failed_attempt_resets_counter_to_zero :
    (incLoginAttempts expiredLockAlice 2000).loginAttempts = 0 ∧
    (incLoginAttempts expiredLockAlice 2000).lockUntil = none ∧
    (incLoginAttempts expiredLockAlice 2000).loginAttempts ≠ 1 :=
  ⟨rfl, rfl, by decide⟩

/-! ## C6 -/

/-- C6: `validatePasswordStrength` returns the five criteria flags exactly
as defined (length at least 8, a lowercase letter, an uppercase letter, a
digit, one of `@$!%*?&`), a score in 0..5 equal to the number of satisfied
criteria, validity exactly when all five hold, and the tier "weak" for
score at most 2, "medium" for 3..4, "strong" for 5.  The function is a pure
Lean function of its argument, so determinism is definitional. -/
theorem validatePasswordStrength_correct (p : String) :
    ((validatePasswordStrength p).criteria.minLength = true ↔ 8 ≤ p.length) ∧
    ((validatePasswordStrength p).criteria.hasLowercase = true ↔ ∃ c ∈ p.data, c.isLower = true) ∧
    ((validatePasswordStrength p).criteria.hasUppercase = true ↔ ∃ c ∈ p.data, c.isUpper = true) ∧
    ((validatePasswordStrength p).criteria.hasNumber = true ↔ ∃ c ∈ p.data, c.isDigit = true) ∧
    ((validatePasswordStrength p).criteria.hasSpecialChar = true ↔ ∃ c ∈ p.data, c ∈ specialChars) ∧
    (validatePasswordStrength p).score = (validatePasswordStrength p).criteria.values.count true ∧
    (validatePasswordStrength p).score ≤ 5 ∧
    ((validatePasswordStrength p).isValid = true ↔
      ((validatePasswordStrength p).criteria.minLength = true ∧
       (validatePasswordStrength p).criteria.hasLowercase = true ∧
       (validatePasswordStrength p).criteria.hasUppercase = true ∧
       (validatePasswordStrength p).criteria.hasNumber = true ∧
       (validatePasswordStrength p).criteria.hasSpecialChar = true)) ∧
    ((validatePasswordStrength p).score ≤ 2 → (validatePasswordStrength p).strength = "weak") ∧
    (3 ≤ (validatePasswordStrength p).score → (validatePasswordStrength p).score ≤ 4 →
      (validatePasswordStrength p).strength = "medium") ∧
    ((validatePasswordStrength p).score = 5 → (validatePasswordStrength p).strength = "strong") := by
  have hfacts := criteria_report_facts (validatePasswordStrength p).criteria
  refine ⟨?_, ?_, ?_, ?_, ?_, hfacts.1, hfacts.2.1, hfacts.2.2, ?_, ?_, ?_⟩
  · show (decide (p.length ≥ 8) = true ↔ _)
    simp
  · exact hasLowerChar_iff p
  · exact hasUpperChar_iff p
  · exact hasDigitChar_iff p
  · exact hasSpecialChar_iff p
  · intro h
    show (if (validatePasswordStrength p).score ≤ 2 then "weak"
          else if (validatePasswordStrength p).score ≤ 4 then "medium" else "strong") = "weak"
    simp [h]
  · intro h3 h4
    show (if (validatePasswordStrength p).score ≤ 2 then "weak"
          else if (validatePasswordStrength p).score ≤ 4 then "medium" else "strong") = "medium"
    have : ¬ (validatePasswordStrength p).score ≤ 2 := by omega
    simp [this, h4]
  · intro h5
    show (if (validatePasswordStrength p).score ≤ 2 then "weak"
          else if (validatePasswordStrength p).score ≤ 4 then "medium" else "strong") = "strong"
    have h1 : ¬ (validatePasswordStrength p).score ≤ 2 := by omega
    have h2 : ¬ (validatePasswordStrength p).score ≤ 4 := by omega
    simp [h1, h2]

/-- Witness for C6: evaluated at "Aa1!aaaa" the score is 5 and the tier is
"strong". -/
theorem validatePasswordStrength_correct_witness :
    (validatePasswordStrength "Aa1!aaaa").strength = "strong" := by
  have h := validatePasswordStrength_correct "Aa1!aaaa"
  exact h.2.2.2.2.2.2.2.2.2.2 (by decide)

/-! ## C7 -/

/-- A token that is structurally malformed. -/
def mangledToken : Token := ⟨1, 0, 10, JWT_SECRET, false⟩

/-- C7: verifying a freshly issued token for user `u` yields the payload
`{userId := u}`; verifying it once the 30-minute expiry has elapsed fails
with the expiry error; and a malformed token or one signed with a
different secret fails with the invalid-token error. -/
theorem token_issue_verify_roundtrip (u now later : Nat) (t : Token) :
    jwtVerify (generateToken u now) JWT_SECRET now = .ok ⟨u⟩ ∧
    (now + thirtyMinMs ≤ later →
      jwtVerify (generateToken u now) JWT_SECRET later = .error .expired) ∧
    (t.wellFormed = false ∨ t.secret ≠ JWT_SECRET →
      jwtVerify t JWT_SECRET now = .error .invalid) := by
  refine ⟨?_, ?_, ?_⟩
  · have hne : ¬ now + thirtyMinMs ≤ now := by simp [thirtyMinMs]
    simp [jwtVerify, generateToken, hne]
  · intro h
    simp [jwtVerify, generateToken, h]
  · rintro (hw | hs)
    · simp [jwtVerify, hw]
    · simp [jwtVerify, hs]

/-- Witness for C7 at user 7, issuance time 0, verification at expiry, and
the malformed token. -/
theorem token_issue_verify_roundtrip_witness :
    jwtVerify (generateToken 7 0) JWT_SECRET 0 = .ok ⟨7⟩ ∧
    jwtVerify (generateToken 7 0) JWT_SECRET thirtyMinMs = .error .expired ∧
    jwtVerify mangledToken JWT_SECRET 0 = .error .invalid := by
  have h := token_issue_verify_roundtrip 7 0 thirtyMinMs mangledToken
  exact ⟨h.1, h.2.1 (by omega), h.2.2 (Or.inl rfl)⟩

/-! ## C2 -/

/-- On a user whose lock has not expired, `incLoginAttempts` only bumps the
counter: the expired-lock branch is not taken and, because the account is
locked, no new `lockUntil` is set. -/
lemma incLoginAttempts_locked (u : DbUser) (now : Nat) (h : u.isLocked now = true) :
    incLoginAttempts u now = { u with loginAttempts := u.loginAttempts + 1 } := by
  have hexp : u.lockExpired now = false := by
    unfold DbUser.isLocked at h
    unfold DbUser.lockExpired
    rcases hu : u.lockUntil with _ | t
    · rfl
    · rw [hu] at h
      simp at h ⊢
      omega
  unfold incLoginAttempts
  rw [hexp]
  simp [h]

/-- Alice currently locked (until t=10000000) after five failures. -/
def lockedAlice : DbUser := { alice with loginAttempts := 5, lockUntil := some 10000000 }

/-- Database-mode state holding only the locked alice. -/
def stLocked : SysState := ⟨true, [lockedAlice], [], 2⟩

/-- Counterexample for C2: a login against a locked, unexpired account —
even with the correct password — is answered with HTTP 401 (the `login`
handler's catch block sends 401 for every authentication error,
authController.js line 296), not the claimed 423. -/
theorem login_locked_status_is_401_not_423 :
    (login stLocked "alice" "Secret1!" none 5).resp.status = 401 ∧
    (login stLocked "alice" "Secret1!" none 5).resp.status ≠ 423 := by
  exact ⟨rfl, by decide⟩

/-- C2 amended: a login attempt against a locked (unexpired) account is
rejected with HTTP 401 — not 423 — carrying the account-locked message,
regardless of the submitted password; the password comparison is never
invoked; the lock timestamp is unchanged while `loginAttempts` is
incremented (the attempt still counts for tracking). -/
theorem login_locked_rejected_401_without_compare
    (st : SysState) (user : DbUser) (username password : String) (now : Nat)
    (hu : username ≠ "") (hp : password ≠ "")
    (hdb : st.dbConnected = true)
    (hfind : st.dbUsers.find? (matchesIdentifier username) = some user)
    (hlocked : user.isLocked now = true) :
    login st username password none now =
      ⟨⟨401, false, "Account is temporarily locked due to too many failed login attempts"⟩,
       { st with dbUsers := updateDbUser st.dbUsers { user with loginAttempts := user.loginAttempts + 1 } },
       false⟩ := by
  have h1 : (username == "") = false := by simpa using hu
  have h2 : (password == "") = false := by simpa using hp
  unfold login
  rw [h1, h2, hdb]
  simp [getAuthenticated, hfind, hlocked, incLoginAttempts_locked user now hlocked]

/-- Witness for C2's amended theorem at the locked fixture. -/
theorem login_locked_rejected_401_without_compare_witness :
    login stLocked "alice" "Secret1!" none 5 =
      ⟨⟨401, false, "Account is temporarily locked due to too many failed login attempts"⟩,
       { stLocked with dbUsers := updateDbUser stLocked.dbUsers { lockedAlice with loginAttempts := 6 } },
       false⟩ := by
  have h := login_locked_rejected_401_without_compare stLocked lockedAlice
    "alice" "Secret1!" 5 (by decide) (by decide) rfl rfl rfl
  exact h

/-! ## C4 -/

/-- Database-mode state holding only (unlocked) alice. -/
def stAlice : SysState := ⟨true, [alice], [], 2⟩

/-- In-memory alice as `createUserObject` stores her, password "Secret1!". -/
def memAlice : MemUser := mkMemUser 1 "alice" "alice@x.com" "Secret1!" 0

/-- In-memory-mode state holding only alice. -/
def stMemAlice : SysState := ⟨false, [], [memAlice], 2⟩

/-- Counterexample for C4: in both storage modes, an unknown-username
failure and a wrong-password failure share status 401 but carry different
messages ("User not found" vs "Invalid credentials" in database mode,
"User not found" vs "Invalid password" in in-memory mode — the handler's
catch forwards `error.message`, authController.js line 298), so the two
responses are distinguishable in contradiction with the claim. -/
theorem login_unknown_vs_wrong_password_messages_differ :
    (login stAlice "bob" "Whatever1!" none 5).resp.status = 401 ∧
    (login stAlice "alice" "WrongPass1!" none 5).resp.status = 401 ∧
    (login stAlice "bob" "Whatever1!" none 5).resp.message ≠
      (login stAlice "alice" "WrongPass1!" none 5).resp.message ∧
    (login stMemAlice "bob" "Whatever1!" none 5).resp.status = 401 ∧
    (login stMemAlice "alice" "WrongPass1!" none 5).resp.status = 401 ∧
    (login stMemAlice "bob" "Whatever1!" none 5).resp.message ≠
      (login stMemAlice "alice" "WrongPass1!" none 5).resp.message := by
  decide

/-- C4 amended: in both storage modes both failures are rejected with
status 401, but the messages differ — "User not found" for a
username/email matching no stored user, versus "Invalid credentials"
(database mode) or "Invalid password" (in-memory mode) for an existing
user with a wrong password — so an observer can tell the two apart (user
enumeration is possible). -/
theorem login_failures_distinguish_unknown_user
    (st smem : SysState) (u1 p1 u2 p2 w1 q1 w2 q2 : String)
    (user : DbUser) (hashv : String) (mu : MemUser) (now : Nat)
    (hdb : st.dbConnected = true)
    (hu1 : u1 ≠ "") (hp1 : p1 ≠ "")
    (hmiss : st.dbUsers.find? (matchesIdentifier u1) = none)
    (hu2 : u2 ≠ "") (hp2 : p2 ≠ "")
    (hfind : st.dbUsers.find? (matchesIdentifier u2) = some user)
    (hnl : user.isLocked now = false)
    (hpw : user.password = some hashv) (hwrong : bcryptHash p2 ≠ hashv)
    (hdbm : smem.dbConnected = false)
    (hw1 : w1 ≠ "") (hq1 : q1 ≠ "")
    (hmmiss : smem.memUsers.find? (fun v => v.username == w1 || v.email == w1) = none)
    (hw2 : w2 ≠ "") (hq2 : q2 ≠ "")
    (hmfind : smem.memUsers.find? (fun v => v.username == w2 || v.email == w2) = some mu)
    (hmwrong : bcryptHash q2 ≠ mu.password) :
    (login st u1 p1 none now).resp = ⟨401, false, "User not found"⟩ ∧
    (login st u2 p2 none now).resp = ⟨401, false, "Invalid credentials"⟩ ∧
    (login st u1 p1 none now).resp.message ≠ (login st u2 p2 none now).resp.message ∧
    (login smem w1 q1 none now).resp = ⟨401, false, "User not found"⟩ ∧
    (login smem w2 q2 none now).resp = ⟨401, false, "Invalid password"⟩ ∧
    (login smem w1 q1 none now).resp.message ≠ (login smem w2 q2 none now).resp.message := by
  have hb1 : (u1 == "") = false := by simpa using hu1
  have hbq1 : (p1 == "") = false := by simpa using hp1
  have hb2 : (u2 == "") = false := by simpa using hu2
  have hbq2 : (p2 == "") = false := by simpa using hp2
  have hne : (bcryptHash p2 == hashv) = false := by simpa using hwrong
  have hbw1 : (w1 == "") = false := by simpa using hw1
  have hcq1 : (q1 == "") = false := by simpa using hq1
  have hbw2 : (w2 == "") = false := by simpa using hw2
  have hcq2 : (q2 == "") = false := by simpa using hq2
  have hmne : (bcryptHash q2 == mu.password) = false := by simpa using hmwrong
  have r1 : (login st u1 p1 none now).resp = ⟨401, false, "User not found"⟩ := by
    unfold login
    rw [hb1, hbq1, hdb]
    simp [getAuthenticated, hmiss]
  have r2 : (login st u2 p2 none now).resp = ⟨401, false, "Invalid credentials"⟩ := by
    unfold login
    rw [hb2, hbq2, hdb]
    simp [getAuthenticated, hfind, hnl, bcryptCompare, hpw, hne]
  have r3 : (login smem w1 q1 none now).resp = ⟨401, false, "User not found"⟩ := by
    unfold login
    rw [hbw1, hcq1, hdbm]
    simp [hmmiss]
  have r4 : (login smem w2 q2 none now).resp = ⟨401, false, "Invalid password"⟩ := by
    unfold login
    rw [hbw2, hcq2, hdbm]
    simp [hmfind, hmne]
  refine ⟨r1, r2, ?_, r3, r4, ?_⟩
  · rw [r1, r2]
    decide
  · rw [r3, r4]
    decide

/-- Witness for C4's amended theorem at the single-user fixtures of both
storage modes. -/
theorem login_failures_distinguish_unknown_user_witness :
    (login stAlice "bob" "Whatever1!" none 5).resp = ⟨401, false, "User not found"⟩ ∧
    (login stAlice "alice" "WrongPass1!" none 5).resp = ⟨401, false, "Invalid credentials"⟩ ∧
    (login stAlice "bob" "Whatever1!" none 5).resp.message ≠
      (login stAlice "alice" "WrongPass1!" none 5).resp.message ∧
    (login stMemAlice "bob" "Whatever1!" none 5).resp = ⟨401, false, "User not found"⟩ ∧
    (login stMemAlice "alice" "WrongPass1!" none 5).resp = ⟨401, false, "Invalid password"⟩ ∧
    (login stMemAlice "bob" "Whatever1!" none 5).resp.message ≠
      (login stMemAlice "alice" "WrongPass1!" none 5).resp.message := by
  exact login_failures_distinguish_unknown_user stAlice stMemAlice "bob" "Whatever1!"
    "alice" "WrongPass1!" "bob" "Whatever1!" "alice" "WrongPass1!" alice
    (bcryptHash "Secret1!") memAlice 5 rfl (by decide) (by decide) rfl
    (by decide) (by decide) rfl rfl rfl (by decide) rfl (by decide) (by decide) rfl
    (by decide) (by decide) rfl (by decide)

/-! ## C5 -/

/-- A password passing the route-level validators satisfies all five
strength criteria (the pattern's lookaheads plus the length check imply
them). -/
lemma routeOk_implies_strength_valid (p : String) (h : routePasswordOk p = true) :
    (validatePasswordStrength p).isValid = true := by
  have hc : decide (p.length ≥ 8) = true ∧ hasLowerChar p = true ∧ hasUpperChar p = true ∧
      hasDigitChar p = true ∧ hasSpecialChar p = true := by
    simp only [routePasswordOk, routePasswordPattern, Bool.and_eq_true] at h
    tauto
  show ([decide (p.length ≥ 8), hasLowerChar p, hasUpperChar p, hasDigitChar p,
         hasSpecialChar p].all id) = true
  simp [hc.1, hc.2.1, hc.2.2.1, hc.2.2.2.1, hc.2.2.2.2]

/-- An empty database-mode state. -/
def stFreshDb : SysState := ⟨true, [], [], 1⟩

/-- Counterexample for C5: "#Abcdef1!" satisfies all five strength
criteria (it is 9 long and has a lowercase letter, an uppercase letter, a
digit and the special character `!`), yet registration rejects it with 400:
the route pattern additionally constrains the FIRST character to the class
`[A-Za-z\d@$!%*?&]`, which `#` is not in.  So "accepted iff all five
criteria hold" fails in the if direction. -/
theorem strong_password_rejected_by_route_pattern :
    (validatePasswordStrength "#Abcdef1!").isValid = true ∧
    (register stFreshDb "carol" "carol@x.com" "#Abcdef1!" 0).resp.status = 400 ∧
    (register stFreshDb "carol" "carol@x.com" "#Abcdef1!" 0).resp.status ≠ 201 := by
  decide

/-- C5 amended: the five criteria are necessary but not sufficient.  In
both storage modes, a password failing at least one of the five criteria is
rejected with HTTP 400, and a registration that succeeds (201) implies all
five criteria held; but some passwords satisfying all five are still
rejected, because the route pattern constrains the first character (and in
database mode the pre-save regex constrains every character) to
`[A-Za-z\d@$!%*?&]`. -/
theorem register_password_criteria_necessary
    (st : SysState) (username email password : String) (now : Nat) :
    ((validatePasswordStrength password).isValid = false →
      (register st username email password now).resp.status = 400) ∧
    ((register st username email password now).resp.status = 201 →
      (validatePasswordStrength password).isValid = true) := by
  constructor
  · intro hbad
    have hroute : routePasswordOk password = false := by
      cases hr : routePasswordOk password
      · rfl
      · exact absurd (routeOk_implies_strength_valid password hr) (by simp [hbad])
    unfold register
    simp [hroute]
  · intro h201
    cases hr : routePasswordOk password
    · exfalso
      unfold register at h201
      simp [hr] at h201
    · exact routeOk_implies_strength_valid password hr

/-- Witness for C5's amended theorem: "weakpass" fails the uppercase,
digit and special criteria and registration answers 400. -/
theorem register_password_criteria_necessary_witness :
    (register stFreshDb "carol" "carol@x.com" "weakpass" 0).resp.status = 400 :=
  (register_password_criteria_necessary stFreshDb "carol" "carol@x.com" "weakpass" 0).1
    (by decide)

/-! ## C3 -/

/-- Sanitizing a database user preserves the lock computation. -/
lemma sanitize_isLocked (u : DbUser) (now : Nat) :
    (DbUser.sanitize u).isLocked now = u.isLocked now := rfl

/-- C3: the Session Gate admits a request only when the token is present,
well formed and signed with the server secret, the clock has not reached
its expiry, and the referenced user exists in whichever store is
authoritative; in database mode the user must moreover not be locked.
(In-memory records carry no lock fields at all — `createUserObject` never
adds them — so an in-memory user is never locked and the lock condition is
satisfied by construction.)  Contrapositively, if any condition fails the
request is rejected. -/
theorem authenticateToken_accepts_only_valid
    (st : SysState) (token : Option Token) (now : Nat)
    (user : SanitizedUser) (stOut : SysState)
    (h : authenticateToken st token now = .ok user stOut) :
    ∃ t, token = some t ∧ t.wellFormed = true ∧ t.secret = JWT_SECRET ∧ now < t.exp ∧
      (st.dbConnected = true →
        ∃ du, st.dbUsers.find? (fun v => v.uid == t.userId) = some du ∧
          du.isLocked now = false) ∧
      (st.dbConnected = false →
        ∃ mu, st.memUsers.find? (fun v => v.uid == t.userId) = some mu) := by
  cases token with
  | none => simp [authenticateToken] at h
  | some t =>
    cases hv : jwtVerify t JWT_SECRET now with
    | error e =>
      cases e <;> simp [authenticateToken, hv] at h
    | ok payload =>
      have hcond : t.wellFormed = true ∧ t.secret = JWT_SECRET ∧ now < t.exp ∧
          payload = ⟨t.userId⟩ := by
        unfold jwtVerify at hv
        split_ifs at hv with hbad hexp
        have hws : t.wellFormed = true ∧ t.secret = JWT_SECRET := by
          simpa using hbad
        exact ⟨hws.1, hws.2, by omega, by simpa using hv.symm⟩
      obtain ⟨hwf, hsec, hexp, hpay⟩ := hcond
      subst hpay
      refine ⟨t, rfl, hwf, hsec, hexp, ?_, ?_⟩
      · intro hdb
        cases hfind : st.dbUsers.find? (fun v => v.uid == t.userId) with
        | none =>
          exfalso
          simp [authenticateToken, hv, getUserFromStorage, hdb, hfind] at h
        | some du =>
          refine ⟨du, rfl, ?_⟩
          by_cases hl : du.isLocked now = true
          · exfalso
            have hsl : (DbUser.sanitize du).isLocked now = true := by
              rw [sanitize_isLocked]; exact hl
            simp [authenticateToken, hv, getUserFromStorage, hdb, hfind, hsl] at h
          · simpa using hl
      · intro hmem
        have hdbf : st.dbConnected = true → False := by
          intro hdb; rw [hdb] at hmem; cases hmem
        have hdb : st.dbConnected = false := by
          cases hx : st.dbConnected
          · rfl
          · exact absurd hx hdbf
        cases hfind : st.memUsers.find? (fun v => v.uid == t.userId) with
        | none =>
          exfalso
          simp [authenticateToken, hv, getUserFromStorage, hdb, hfind] at h
        | some mu => exact ⟨mu, rfl⟩

/-- The token issued for alice at t=0. -/
def tokenAlice : Token := generateToken 1 0

/-- The state after the gate refreshes alice's activity at t=5. -/
def stAliceAfter : SysState := updateUserActivity stAlice (DbUser.sanitize alice) true 5

/-- Witness for C3: a concrete accepted request (alice's fresh token at
t=5 against the database-mode single-user state) satisfies all the
conditions. -/
theorem authenticateToken_accepts_only_valid_witness :
    ∃ t, (some tokenAlice) = some t ∧ t.wellFormed = true ∧ t.secret = JWT_SECRET ∧
      5 < t.exp ∧
      (stAlice.dbConnected = true →
        ∃ du, stAlice.dbUsers.find? (fun v => v.uid == t.userId) = some du ∧
          du.isLocked 5 = false) ∧
      (stAlice.dbConnected = false →
        ∃ mu, stAlice.memUsers.find? (fun v => v.uid == t.userId) = some mu) :=
  authenticateToken_accepts_only_valid stAlice (some tokenAlice) 5
    (DbUser.sanitize alice) stAliceAfter rfl

/-! ## C8 and C9 helpers -/

/-- Every user handed out by `getUserFromStorage` has both sensitive
fields stripped: the database branch deselects them, the in-memory branch
destructures them away. -/
lemma getUserFromStorage_strips (st : SysState) (uid : Nat) (u : SanitizedUser) (b : Bool)
    (h : getUserFromStorage st uid = (some u, b)) :
    u.password = none ∧ u.twoFactorSecret = none := by
  unfold getUserFromStorage at h
  by_cases hdb : st.dbConnected
  · rw [if_pos hdb] at h
    cases hf : st.dbUsers.find? (fun v => v.uid == uid) with
    | none => rw [hf] at h; simp at h
    | some du =>
      rw [hf] at h
      simp at h
      rw [← h.1]
      exact ⟨rfl, rfl⟩
  · rw [if_neg hdb] at h
    cases hf : st.memUsers.find? (fun v => v.uid == uid) with
    | none => rw [hf] at h; simp at h
    | some mu =>
      rw [hf] at h
      simp at h
      rw [← h.1]
      exact ⟨rfl, rfl⟩

/-! ## C8 -/

/-- C8: `disableTwoFactor` verifies the re-supplied password with
`user.comparePassword` on the request-attached user — but the Session Gate
attached a user whose password hash was stripped
(`.select('-password -twoFactorSecret')` in database mode, destructuring in
in-memory mode, where the plain object has no `comparePassword` method
either).  The comparison therefore throws for EVERY submitted password —
the correct one included — and the handler's catch answers 500 with the
generic failure message, leaving the state unchanged.  The claimed
behaviour (verify, then clear 2FA on success / fail only on wrong
password) is unreachable. -/
theorem disableTwoFactor_always_500
    (st : SysState) (uid : Nat) (user : SanitizedUser) (isMongo : Bool) (pw : String)
    (hload : getUserFromStorage st uid = (some user, isMongo)) (hpw : pw ≠ "") :
    disableTwoFactor st user (some pw) =
      ⟨⟨500, false, "Failed to disable two-factor authentication"⟩, st⟩ := by
  obtain ⟨hpass, -⟩ := getUserFromStorage_strips st uid user isMongo hload
  have hne : ((some pw).getD "" == "") = false := by simpa using hpw
  cases hm : user.hasCompareMethod <;>
    simp [disableTwoFactor, hne, SanitizedUser.comparePassword, hm, hpass, bcryptCompare, hpw]

/-- Alice with two-factor authentication enabled. -/
def alice2FA : DbUser :=
  { alice with twoFactorSecret := some "JBSWY3DPEHPK3PXP", twoFactorEnabled := true }

/-- Database-mode state holding the 2FA-enabled alice. -/
def st2FA : SysState := ⟨true, [alice2FA], [], 2⟩

/-- Witness for C8: even with alice's CORRECT password, disabling 2FA
answers 500 and changes nothing. -/
theorem disableTwoFactor_always_500_witness :
    disableTwoFactor st2FA (DbUser.sanitize alice2FA) (some "Secret1!") =
      ⟨⟨500, false, "Failed to disable two-factor authentication"⟩, st2FA⟩ :=
  disableTwoFactor_always_500 st2FA 1 (DbUser.sanitize alice2FA) true "Secret1!"
    rfl (by decide)

/-! ## C9 -/

/-- A user admitted by `authenticateToken` was produced by
`getUserFromStorage`. -/
lemma authenticateToken_ok_from_storage
    (st : SysState) (tk : Option Token) (n : Nat) (u : SanitizedUser) (s : SysState)
    (h : authenticateToken st tk n = .ok u s) :
    ∃ uid b, getUserFromStorage st uid = (some u, b) := by
  cases tk with
  | none => simp [authenticateToken] at h
  | some t =>
    cases hv : jwtVerify t JWT_SECRET n with
    | error e => cases e <;> simp [authenticateToken, hv] at h
    | ok payload =>
      rcases hg : getUserFromStorage st payload.userId with ⟨mu, b⟩
      cases mu with
      | none => simp [authenticateToken, hv, hg] at h
      | some u0 =>
        refine ⟨payload.userId, b, ?_⟩
        rw [hg]
        simp [authenticateToken, hv, hg] at h
        split_ifs at h with h1 h2
        injection h with hu hs
        rw [hu]

/-- A user granted by `optionalAuth` was produced by
`getUserFromStorage`. -/
lemma optionalAuth_some_from_storage
    (st : SysState) (tk : Option Token) (n : Nat) (u : SanitizedUser) (s : SysState)
    (h : optionalAuth st tk n = (some u, s)) :
    ∃ uid b, getUserFromStorage st uid = (some u, b) := by
  cases tk with
  | none => simp [optionalAuth] at h
  | some t =>
    cases hv : jwtVerify t JWT_SECRET n with
    | error e => simp [optionalAuth, hv] at h
    | ok payload =>
      rcases hg : getUserFromStorage st payload.userId with ⟨mu, b⟩
      cases mu with
      | none => simp [optionalAuth, hv, hg] at h
      | some u0 =>
        refine ⟨payload.userId, b, ?_⟩
        rw [hg]
        simp [optionalAuth, hv, hg] at h
        split_ifs at h with h1 h2
        · have hu : u0 = u := by
            have hfst := congrArg Prod.fst h
            simpa using hfst
          rw [hu]
        · simp at h
        · simp at h

/-- C9: the user object either gate attaches to the request context never
carries the password hash or the 2FA secret — both read as absent in both
storage modes. -/
theorem attached_user_has_no_sensitive_fields
    (st1 st2 : SysState) (tk1 tk2 : Option Token) (n1 n2 : Nat)
    (u1 u2 : SanitizedUser) (s1 s2 : SysState)
    (h1 : authenticateToken st1 tk1 n1 = .ok u1 s1)
    (h2 : optionalAuth st2 tk2 n2 = (some u2, s2)) :
    (u1.password = none ∧ u1.twoFactorSecret = none) ∧
    (u2.password = none ∧ u2.twoFactorSecret = none) := by
  obtain ⟨uid1, b1, hg1⟩ := authenticateToken_ok_from_storage st1 tk1 n1 u1 s1 h1
  obtain ⟨uid2, b2, hg2⟩ := optionalAuth_some_from_storage st2 tk2 n2 u2 s2 h2
  exact ⟨getUserFromStorage_strips st1 uid1 u1 b1 hg1,
         getUserFromStorage_strips st2 uid2 u2 b2 hg2⟩

/-- Witness for C9 at the concrete accepted request of the C3 fixture,
through both gates. -/
theorem attached_user_has_no_sensitive_fields_witness :
    ((DbUser.sanitize alice).password = none ∧
     (DbUser.sanitize alice).twoFactorSecret = none) ∧
    ((DbUser.sanitize alice).password = none ∧
     (DbUser.sanitize alice).twoFactorSecret = none) :=
  attached_user_has_no_sensitive_fields stAlice stAlice (some tokenAlice) (some tokenAlice)
    5 5 (DbUser.sanitize alice) (DbUser.sanitize alice) stAliceAfter stAliceAfter rfl rfl

/-! ## C10 -/

/-- A successful `findByIdAndUpdate` touches only the database
collection. -/
lemma dbFindByIdAndUpdate_preserves_memUsers
    (st : SysState) (uid : Nat) (f : DbUser → DbUser) (st2 : SysState)
    (h : dbFindByIdAndUpdate st uid f = .ok st2) : st2.memUsers = st.memUsers := by
  unfold dbFindByIdAndUpdate at h
  split_ifs at h
  simp at h
  rw [← h]

/-- C10: the 2FA confirm (`verifyTwoFactor`) and disable handlers write
exclusively through the database model `User.findByIdAndUpdate`; on every
path — success or failure, in either storage mode, so in particular when
the in-memory list is authoritative — the in-memory user records
(including their `twoFactorSecret`/`twoFactorEnabled` fields) are left
entirely unchanged. -/
theorem twoFactor_ops_leave_memUsers_unchanged
    (st : SysState) (user : SanitizedUser) (code pending pw : Option String) (now : Nat) :
    (verifyTwoFactor st user code pending now).st.memUsers = st.memUsers ∧
    (disableTwoFactor st user pw).st.memUsers = st.memUsers := by
  constructor
  · unfold verifyTwoFactor
    split
    · rfl
    · split
      · rfl
      · split
        · rfl
        · split
          · rename_i st2 heq
            exact dbFindByIdAndUpdate_preserves_memUsers st user.uid _ st2 heq
          · rfl
  · unfold disableTwoFactor
    split
    · rfl
    · split
      · rfl
      · rfl
      · split
        · rename_i st2 heq
          exact dbFindByIdAndUpdate_preserves_memUsers st user.uid _ st2 heq
        · rfl

end MindMap
